import Mathlib

/-!
Verification of the turn-based Nim move-validation / game-completion protocol
and of the chat service of the FakeStackOverflow-style repository.

Server-side game code (Move Validator, Turn Resolver, Session Controller) is
not present in the source tree; those definitions are modelled from the spec
(§4.1-§4.4) and marked as such.  The client hooks (`useNimGamePage`,
`useGamePage`) and the chat service (`chat.service.ts`) are embedded directly
from the source.
-/

/-- Game status, spec §3: `status ∈ {WAITING, IN_PROGRESS, OVER}`. -/
inductive GameStatus where
  | WAITING
  | IN_PROGRESS
  | OVER
deriving DecidableEq, Repr

/-- A Nim move as the server sees it: the submitting player and the requested
object count (spec §3: player identifier, requested object count).  The count
is an `Int`, so "is an integer" from validator check (c) is built into the
type. -/
structure NimMove where
  player : String
  count : Int
deriving DecidableEq, Repr

/-- The persisted Game document, spec §3: identifier, ordered participants,
status, ordered move sequence, derived remaining-object count, winners list
(empty until OVER). -/
structure Game where
  gameID : String
  participants : List String
  status : GameStatus
  moves : List NimMove
  remainingObjects : Int
  winners : List String
deriving DecidableEq, Repr

/-- Result of the Move Validator, spec §4.1: `Ok | Rejected(reason)`. -/
inductive ValidationResult where
  | ok
  | rejected (reason : String)
deriving DecidableEq, Repr

/-- Modelled from the spec: the Move Validator (spec §4.1) is server code not
present in the source tree.  Checks in order: (a) status IN_PROGRESS, else
"game not active"; (b) the mover is `participants[moves.length % 2]`, else
"not your turn"; (c) the count is in [1,3], else "invalid move count";
(d) the count does not exceed `remainingObjects`, else "insufficient
objects".  First failing check wins; the function is pure. -/
def validate (game : Game) (move : NimMove) : ValidationResult :=
  if game.status ≠ GameStatus.IN_PROGRESS then
    ValidationResult.rejected "game not active"
  else if game.participants.get? (game.moves.length % 2) ≠ some move.player then
    ValidationResult.rejected "not your turn"
  else if ¬ (1 ≤ move.count ∧ move.count ≤ 3) then
    ValidationResult.rejected "invalid move count"
  else if ¬ (move.count ≤ game.remainingObjects) then
    ValidationResult.rejected "insufficient objects"
  else
    ValidationResult.ok

/-- Modelled from the spec: the Turn Resolver (spec §4.2) is server code not
present in the source tree.  Appends the move, decrements `remainingObjects`
by the count; when the result is 0 sets `status = OVER` and
`winners = [move.player]`, otherwise the game stays IN_PROGRESS and the turn
passes implicitly via move-count parity. -/
def resolve (game : Game) (move : NimMove) : Game :=
  let remaining := game.remainingObjects - move.count
  if remaining = 0 then
    { game with
        moves := game.moves ++ [move]
        remainingObjects := remaining
        status := GameStatus.OVER
        winners := [move.player] }
  else
    { game with
        moves := game.moves ++ [move]
        remainingObjects := remaining }

/-- Outcome of one `submitMove` request, spec §4.3: unknown game id, an error
event scoped to the offending player, or an update event carrying the full
new game state. -/
inductive SubmitResult where
  | notFound
  | errorEvent (player : String) (message : String)
  | updated (game : Game)
deriving DecidableEq, Repr

/-- The Game State Store (spec §4.4) as a map from game identifier to stored
document. -/
def GameStore : Type := String → Option Game

/-- Modelled from the spec: the Game Session Controller (spec §4.3) is server
code not present in the source tree.  Load by id (NotFound if absent) → run
the Move Validator → on rejection emit an error event scoped to the mover,
store untouched → on acceptance run the Turn Resolver, persist the new game
(overwrite) and emit the update event.  Validation and resolution happen
before any write. -/
def submitMove (store : GameStore) (gameID : String) (move : NimMove) :
    GameStore × SubmitResult :=
  match store gameID with
  | none => (store, SubmitResult.notFound)
  | some game =>
    match validate game move with
    | ValidationResult.rejected reason =>
        (store, SubmitResult.errorEvent move.player reason)
    | ValidationResult.ok =>
        let newGame := resolve game move
        (fun id => if id = gameID then some newGame else store id,
         SubmitResult.updated newGame)

/-- Client-side move object: `NimMove { numObjects }` from the client types
(spec §6: `move: { numObjects: integer 1..3 }`). -/
structure NimMovePayload where
  numObjects : Int
deriving DecidableEq, Repr

/-- Client-side game state as rendered by `NimGamePage`
(`src/unnamed/part_002`) and described in spec §6:
`{ status, player1, player2, moves, remainingObjects, winners? }`. -/
structure ClientGameState where
  status : String
  player1 : Option String
  player2 : Option String
  moves : List NimMovePayload
  remainingObjects : Int
  winners : Option (List String)
deriving DecidableEq, Repr

/-- Client-side `GameInstance`: `{ gameID, players, state }` (spec §6). -/
structure GameInstance where
  gameID : String
  players : List String
  state : ClientGameState
deriving DecidableEq, Repr

/-- The `move` React state of `useNimGamePage` (`src/unnamed/part_000`,
line 19): `useState<number | string>('')` — either a string (initially `''`)
or a number. -/
inductive MoveVal where
  | str (s : String)
  | num (n : Int)
deriving DecidableEq, Repr

/-- JavaScript `Number(x)` restricted to the values that occur in
`useNimGamePage`: a number converts to itself, `Number('') = 0`, and a
string of decimal digits converts to its value.  (A non-numeric non-empty
string is `NaN` in JavaScript; the model maps it to 0, which fails every
`1 ≤ _ ≤ 3` guard exactly as `NaN` does.) -/
def jsNumber : MoveVal → Int
  | MoveVal.num n => n
  | MoveVal.str s =>
      if s.data.all Char.isDigit then
        s.data.foldl (fun acc c => acc * 10 + ((c.toNat : Int) - 48)) 0
      else 0

/-- JavaScript `s.slice(-1)`: the last character of `s` as a string, `''`
for the empty string. -/
def sliceLast (s : String) : String :=
  match s.data.getLast? with
  | some c => String.mk [c]
  | none => ""

/-- The inner `GameMove2<NimMove>` object built by `handleMakeMove`
(`src/unnamed/part_000`, lines 22-26):
`{ playerID: user.username, gameID: gameState.gameID, move: { numObjects: Number(move) } }`. -/
structure GameMove2 where
  playerID : String
  gameID : String
  move : NimMovePayload
deriving DecidableEq, Repr

/-- The object actually passed to `socket.emit('makeMove', …)`
(`src/unnamed/part_000`, lines 28-31): `{ gameID, move: nimMove }`. -/
structure MakeMoveEmit where
  gameID : String
  move : GameMove2
deriving DecidableEq, Repr

/-- `handleMakeMove` from `useNimGamePage` (`src/unnamed/part_000`,
lines 21-32): builds the `GameMove2` payload from the current user, the
joined game and the `move` input state, and wraps it in the emitted event
object. -/
def handleMakeMove (username : String) (gameState : GameInstance)
    (move : MoveVal) : MakeMoveEmit :=
  let nimMove : GameMove2 :=
    { playerID := username
      gameID := gameState.gameID
      move := { numObjects := jsNumber move } }
  { gameID := gameState.gameID, move := nimMove }

/-- `handleInputChange` from `useNimGamePage` (`src/unnamed/part_000`,
lines 34-41): `numValue = Number(value.slice(-1))`; if the field is empty or
`numValue` is in [1,3], the stored move becomes 1 (empty field) or
`numValue`; otherwise the stored move is unchanged. -/
def handleInputChange (value : String) (currentMove : MoveVal) : MoveVal :=
  let numValue := jsNumber (MoveVal.str (sliceLast value))
  if value = "" ∨ (1 ≤ numValue ∧ numValue ≤ 3) then
    (if value = "" then MoveVal.num 1 else MoveVal.num numValue)
  else
    currentMove

/-- The "Current Player to Move" expression of `NimGamePage`
(`src/unnamed/part_002`, line 40): `gameState.players[gameState.state.moves.length % 2]`
(`none` models JavaScript `undefined` when the index is out of range). -/
def currentPlayerDisplay (gameState : GameInstance) : Option String :=
  gameState.players.get? (gameState.state.moves.length % 2)

/-- The `disabled` expression of the Submit Move button (`src/unnamed/part_002`,
line 65): `gameState.players[gameState.state.moves.length % 2] !== user.username`. -/
def submitDisabled (gameState : GameInstance) (username : String) : Bool :=
  gameState.players.get? (gameState.state.moves.length % 2) != some username

/-- The `gameError` socket payload (`{ player, error }`), spec §6 and
`src/client/src/hooks/useGamePage.ts`. -/
structure GameErrorPayload where
  player : String
  error : String
deriving DecidableEq, Repr

/-- `handleGameError` from `useGamePage`
(`src/client/src/hooks/useGamePage.ts`, lines 53-57): sets the error state
to the payload's error exactly when the payload's `player` is the current
user's username, otherwise leaves the error state unchanged. -/
def handleGameError (username : String) (currentError : Option String)
    (payload : GameErrorPayload) : Option String :=
  if payload.player = username then some payload.error else currentError

/-- A chat message document (`Message` in `src/server/types`): body, sender,
timestamp and message type. -/
structure ChatMessage where
  msg : String
  msgFrom : String
  msgDateTime : Int
  type : String
deriving DecidableEq, Repr

/-- A chat document (`Chat` in `src/server/types/chat.d.ts`): participants
and the stored message ids. -/
structure Chat where
  participants : List String
  messages : List String
deriving DecidableEq, Repr

/-- `ChatResponse = Chat | { error: string }` (`src/server/types/chat.d.ts`,
line 113). -/
inductive ChatResponse where
  | chat (c : Chat)
  | err (e : String)
deriving DecidableEq, Repr

/-- `MessageResponse = Message | { error: string }`. -/
inductive MessageResponse where
  | msg (m : ChatMessage)
  | err (e : String)
deriving DecidableEq, Repr

/-- The database state seen by the chat service: the existing user ids
(`UserModel`) and the chat documents keyed by chat id (`ChatModel`). -/
structure ChatDB where
  users : List String
  chats : List (String × Chat)
deriving DecidableEq, Repr

/-- `ChatModel.findById` / `findOne({ _id: chatId })`: association lookup by
chat id. -/
def lookupChat (db : ChatDB) (chatId : String) : Option Chat :=
  (db.chats.find? (fun p => p.1 = chatId)).map Prod.snd

/-- `createMessage` from `src/server/services/chat.service.ts` (lines 42-55).
The two database effects are injected: `lookupFails` models
`UserModel.findOne` throwing, `saveFails` models `message.save()` throwing.
Every failure path lands in the single `catch`, which returns the constant
string `Error creating message: User not found`; on success the saved
message is `{ ...messageData, type: 'direct' }`. -/
def createMessage (users : List String) (lookupFails saveFails : Bool)
    (messageData : ChatMessage) : MessageResponse :=
  if lookupFails then
    MessageResponse.err "Error creating message: User not found"
  else if ¬ users.contains messageData.msgFrom then
    MessageResponse.err "Error creating message: User not found"
  else if saveFails then
    MessageResponse.err "Error creating message: User not found"
  else
    MessageResponse.msg { messageData with type := "direct" }

/-- `getChatsByParticipants` from `src/server/services/chat.service.ts`
(lines 106-118), split into the `$all` query itself
(`ChatModel.find({ participants: { $all: p } })`). -/
def chatsMatching (db : ChatDB) (p : List String) : List Chat :=
  (db.chats.map Prod.snd).filter (fun c => p.all (fun u => c.participants.contains u))

/-- The try/catch wrapper of `getChatsByParticipants`: `findResult` is the
outcome of the `ChatModel.find` call (`Except.error` models a thrown
database error); any error collapses to the empty array. -/
def getChatsByParticipantsRaw (findResult : Except String (List Chat)) : List Chat :=
  match findResult with
  | Except.ok chats => chats
  | Except.error _ => []

/-- `getChatsByParticipants` on a healthy database: the `$all` query
succeeds and its result is returned unchanged. -/
def getChatsByParticipants (db : ChatDB) (p : List String) : List Chat :=
  getChatsByParticipantsRaw (Except.ok (chatsMatching db p))

/-- `addParticipantToChat` from `src/server/services/chat.service.ts`
(lines 127-149).  `UserModel.findById(userId)` must find the user, else the
thrown `User does not exist.` is caught; then
`findOneAndUpdate({ _id: chatId, participants: { $ne: userId } },
{ $push: { participants: userId } })` updates the chat only when it exists
and does not already contain the user, else the thrown
`Chat not found or user already a participant.` is caught.  Returns the new
database state and the response. -/
def addParticipantToChat (db : ChatDB) (chatId userId : String) :
    ChatDB × ChatResponse :=
  if ¬ db.users.contains userId then
    (db, ChatResponse.err "Error adding participant to chat: User does not exist.")
  else
    match lookupChat db chatId with
    | some chat =>
      if chat.participants.contains userId then
        (db, ChatResponse.err
          "Error adding participant to chat: Chat not found or user already a participant.")
      else
        let updated := { chat with participants := chat.participants ++ [userId] }
        ({ db with
            chats := db.chats.map (fun p => if p.1 = chatId then (p.1, updated) else p) },
         ChatResponse.chat updated)
    | none =>
      (db, ChatResponse.err
        "Error adding participant to chat: Chat not found or user already a participant.")

/-! ### Sample data used by the witnesses -/

/-- A two-player game in progress with 2 objects left, Alice to move. -/
def gameA : Game :=
  { gameID := "nim1"
    participants := ["alice", "bob"]
    status := GameStatus.IN_PROGRESS
    moves := []
    remainingObjects := 2
    winners := [] }

/-- Alice takes the last 2 objects. -/
def moveA : NimMove := { player := "alice", count := 2 }

/-- A game in progress with 5 objects left, Alice to move. -/
def game5 : Game := { gameA with remainingObjects := 5 }

/-- Alice asks for 4 objects (out of range). -/
def move4 : NimMove := { player := "alice", count := 4 }

/-- A store holding exactly `gameA` under its id. -/
def storeA : GameStore := fun id => if id = "nim1" then some gameA else none

/-- A client `GameInstance` mirroring `gameA`. -/
def instA : GameInstance :=
  { gameID := "nim1"
    players := ["alice", "bob"]
    state :=
      { status := "IN_PROGRESS"
        player1 := some "alice"
        player2 := some "bob"
        moves := []
        remainingObjects := 2
        winners := none } }

/-- Same players and move-history length as `instA`, different pile. -/
def instB : GameInstance :=
  { gameID := "nim2"
    players := ["alice", "bob"]
    state :=
      { status := "IN_PROGRESS"
        player1 := some "alice"
        player2 := some "bob"
        moves := []
        remainingObjects := 5
        winners := none } }

/-! ### Helper lemmas -/

/-- The validator accepts exactly when all four checks pass. -/
theorem validate_eq_ok (g : Game) (m : NimMove) :
    validate g m = ValidationResult.ok ↔
      g.status = GameStatus.IN_PROGRESS ∧
      g.participants.get? (g.moves.length % 2) = some m.player ∧
      (1 ≤ m.count ∧ m.count ≤ 3) ∧
      m.count ≤ g.remainingObjects := by
  unfold validate
  split_ifs with h1 h2 h3 h4 <;> simp_all [not_not]

/-! ### Claims -/

/-- C1: when an accepted move takes the last objects, the resolved game has
status OVER with winners exactly the mover; and an OVER game rejects every
further move (so OVER is entered exactly once). -/
theorem resolve_last_object_wins (game : Game) (move : NimMove)
    (g : Game) (m : NimMove)
    (hprog : game.status = GameStatus.IN_PROGRESS)
    (hval : validate game move = ValidationResult.ok)
    (hlast : move.count = game.remainingObjects)
    (hover : g.status = GameStatus.OVER) :
    (resolve game move).status = GameStatus.OVER ∧
    (resolve game move).winners = [move.player] ∧
    validate g m = ValidationResult.rejected "game not active" := by
  have h0 : game.remainingObjects - move.count = 0 := by
    rw [hlast]; exact sub_self _
  refine ⟨?_, ?_, ?_⟩
  · simp [resolve, h0]
  · simp [resolve, h0]
  · unfold validate
    rw [hover]
    simp

/-- Witness for C1: Alice takes the last 2 of 2 objects, the game is OVER
with winners = [alice], and the finished game rejects a further move. -/
theorem resolve_last_object_wins_witness :
    (resolve gameA moveA).status = GameStatus.OVER ∧
    (resolve gameA moveA).winners = [moveA.player] ∧
    validate (resolve gameA moveA) moveA = ValidationResult.rejected "game not active" :=
  resolve_last_object_wins gameA moveA (resolve gameA moveA) moveA
    (by decide) (by decide) (by decide) (by decide)

/-- C2: the displayed current player is `players[moves.length % 2]`; the
submit button is enabled exactly when that expression equals the current
username; the expression is a pure function of the players list and the
move-history length; and the (spec-modelled) validator accepts a move only
from `participants[moves.length % 2]`. -/
theorem current_player_parity (g g2 : GameInstance) (u : String)
    (sg : Game) (m : NimMove)
    (hplayers : g.players = g2.players)
    (hlen : g.state.moves.length = g2.state.moves.length)
    (hok : validate sg m = ValidationResult.ok) :
    currentPlayerDisplay g = g.players.get? (g.state.moves.length % 2) ∧
    (submitDisabled g u = false ↔ currentPlayerDisplay g = some u) ∧
    currentPlayerDisplay g = currentPlayerDisplay g2 ∧
    sg.participants.get? (sg.moves.length % 2) = some m.player := by
  refine ⟨rfl, ?_, ?_, ?_⟩
  · simp [submitDisabled, currentPlayerDisplay]
  · simp [currentPlayerDisplay, hplayers, hlen]
  · exact ((validate_eq_ok sg m).mp hok).2.1

/-- Witness for C2: in `instA` (no moves yet) the displayed player is Alice,
the button is enabled for Alice, the display agrees with `instB`, and the
validator confirms it is Alice's turn in `gameA`. -/
theorem current_player_parity_witness :
    currentPlayerDisplay instA = instA.players.get? (instA.state.moves.length % 2) ∧
    (submitDisabled instA "alice" = false ↔ currentPlayerDisplay instA = some "alice") ∧
    currentPlayerDisplay instA = currentPlayerDisplay instB ∧
    gameA.participants.get? (gameA.moves.length % 2) = some moveA.player :=
  current_player_parity instA instB "alice" gameA moveA rfl rfl (by decide)

/-- C3: each rejection reason of the validator holds exactly when all
earlier checks pass and that check fails, in the fixed order (a) active,
(b) turn, (c) count range, (d) pile size; acceptance holds exactly when all
four pass.  In particular a count of 4 against a pile of 5 fails check (c),
not check (d). -/
theorem validate_first_failing_check (g : Game) (m : NimMove) :
    (validate g m = ValidationResult.rejected "game not active" ↔
      g.status ≠ GameStatus.IN_PROGRESS) ∧
    (validate g m = ValidationResult.rejected "not your turn" ↔
      g.status = GameStatus.IN_PROGRESS ∧
      g.participants.get? (g.moves.length % 2) ≠ some m.player) ∧
    (validate g m = ValidationResult.rejected "invalid move count" ↔
      g.status = GameStatus.IN_PROGRESS ∧
      g.participants.get? (g.moves.length % 2) = some m.player ∧
      ¬ (1 ≤ m.count ∧ m.count ≤ 3)) ∧
    (validate g m = ValidationResult.rejected "insufficient objects" ↔
      g.status = GameStatus.IN_PROGRESS ∧
      g.participants.get? (g.moves.length % 2) = some m.player ∧
      (1 ≤ m.count ∧ m.count ≤ 3) ∧
      ¬ (m.count ≤ g.remainingObjects)) ∧
    (validate g m = ValidationResult.ok ↔
      g.status = GameStatus.IN_PROGRESS ∧
      g.participants.get? (g.moves.length % 2) = some m.player ∧
      (1 ≤ m.count ∧ m.count ≤ 3) ∧
      m.count ≤ g.remainingObjects) := by
  have hs1 : ("game not active" : String) ≠ "not your turn" := by decide
  have hs2 : ("game not active" : String) ≠ "invalid move count" := by decide
  have hs3 : ("game not active" : String) ≠ "insufficient objects" := by decide
  have hs4 : ("not your turn" : String) ≠ "invalid move count" := by decide
  have hs5 : ("not your turn" : String) ≠ "insufficient objects" := by decide
  have hs6 : ("invalid move count" : String) ≠ "insufficient objects" := by decide
  refine ⟨?_, ?_, ?_, ?_, validate_eq_ok g m⟩ <;>
    (unfold validate; split_ifs with h1 h2 h3 h4 <;>
      simp_all [not_not, hs1, hs2, hs3, hs4, hs5, hs6, Ne.symm])

/-- Witness for C3: the spec scenario — count 4 against a pile of 5 is
rejected as "invalid move count", not "insufficient objects". -/
theorem validate_first_failing_check_witness :
    validate game5 move4 = ValidationResult.rejected "invalid move count" :=
  ((validate_first_failing_check game5 move4).2.2.1).mpr
    ⟨by decide, by decide, by decide⟩

/-- C4: `submitMove` is atomic — either the store is unchanged and no update
event is emitted (NotFound or rejection), or the stored game under the
submitted id is replaced by the resolved game, every other id is untouched,
and the update event carries exactly that game. -/
theorem submitMove_atomic (store : GameStore) (gameID : String) (m : NimMove) :
    ((submitMove store gameID m).1 = store ∧
      ∀ g, (submitMove store gameID m).2 ≠ SubmitResult.updated g) ∨
    (∃ g0, store gameID = some g0 ∧ validate g0 m = ValidationResult.ok ∧
      (submitMove store gameID m).2 = SubmitResult.updated (resolve g0 m) ∧
      (submitMove store gameID m).1 gameID = some (resolve g0 m) ∧
      ∀ id, id ≠ gameID → (submitMove store gameID m).1 id = store id) := by
  cases hstore : store gameID with
  | none =>
    refine Or.inl ⟨?_, ?_⟩ <;> simp [submitMove, hstore]
  | some g0 =>
    cases hval : validate g0 m with
    | rejected reason =>
      refine Or.inl ⟨?_, ?_⟩ <;> simp [submitMove, hstore, hval]
    | ok =>
      refine Or.inr ⟨g0, rfl, hval, ?_, ?_, ?_⟩
      · simp [submitMove, hstore, hval]
      · simp [submitMove, hstore, hval]
      · intro id hid
        simp [submitMove, hstore, hval, hid]

/-- Witness for C4: submitting Alice's valid last move against `storeA`
commits the resolved game under "nim1" and leaves other ids untouched;
submitting to a missing id leaves the store unchanged. -/
theorem submitMove_atomic_witness :
    (submitMove storeA "nim1" moveA).1 "nim1" = some (resolve gameA moveA) ∧
    (submitMove storeA "nim1" moveA).1 "other" = storeA "other" ∧
    (submitMove storeA "missing" moveA).1 = storeA := by
  refine ⟨?_, ?_, ?_⟩
  · rcases submitMove_atomic storeA "nim1" moveA with ⟨_, hne⟩ | ⟨g0, hg, _, _, hst, _⟩
    · exact absurd (show (submitMove storeA "nim1" moveA).2 =
        SubmitResult.updated (resolve gameA moveA) by decide) (hne (resolve gameA moveA))
    · have hg0 : g0 = gameA :=
        (Option.some.inj ((show storeA "nim1" = some gameA from rfl).symm.trans hg)).symm
      rw [hg0] at hst
      exact hst
  · rcases submitMove_atomic storeA "nim1" moveA with ⟨_, hne⟩ | ⟨g0, _, _, _, _, hrest⟩
    · exact absurd (show (submitMove storeA "nim1" moveA).2 =
        SubmitResult.updated (resolve gameA moveA) by decide) (hne (resolve gameA moveA))
    · exact hrest "other" (by decide)
  · rcases submitMove_atomic storeA "missing" moveA with ⟨heq, _⟩ | ⟨g0, hg, _, _, _, _⟩
    · exact heq
    · exact absurd (show storeA "missing" = none by decide)
        (by rw [hg]; simp)

/-- C5 counterexample: with the untouched initial input state (`move = ''`,
the `useState` default), `handleMakeMove` sends `numObjects = Number('') = 0`,
which is not in [1,3]; the submit button does not prevent this, since its
`disabled` expression ignores the `move` state (it is enabled here for
Alice).  So not every submitted payload carries `numObjects` in 1..3. -/
theorem handleMakeMove_initial_zero :
    (handleMakeMove "alice" instA (MoveVal.str "")).move.move.numObjects = 0 ∧
    ¬ (1 ≤ (handleMakeMove "alice" instA (MoveVal.str "")).move.move.numObjects ∧
        (handleMakeMove "alice" instA (MoveVal.str "")).move.move.numObjects ≤ 3) ∧
    submitDisabled instA "alice" = false := by
  refine ⟨rfl, by decide, by decide⟩

/-- C5 (amended): the emitted payload always has the claimed shape —
`playerID` is the current username, both `gameID` fields are the joined
game's id — and `numObjects = Number(move)`: the entered value whenever the
move state is a number (as after every accepted input change), but 0 for
the untouched initial `''` state. -/
theorem handleMakeMove_payload (username : String) (gs : GameInstance)
    (mv : MoveVal) (n : Int) (hnum : mv = MoveVal.num n) :
    (handleMakeMove username gs mv).move.playerID = username ∧
    (handleMakeMove username gs mv).move.gameID = gs.gameID ∧
    (handleMakeMove username gs mv).gameID = gs.gameID ∧
    (handleMakeMove username gs mv).move.move.numObjects = n ∧
    (handleMakeMove username gs (MoveVal.str "")).move.move.numObjects = 0 := by
  subst hnum
  exact ⟨rfl, rfl, rfl, rfl, rfl⟩

/-- Witness for C5 (amended): Alice submits an entered 2 in `instA`. -/
theorem handleMakeMove_payload_witness :
    (handleMakeMove "alice" instA (MoveVal.num 2)).move.playerID = "alice" ∧
    (handleMakeMove "alice" instA (MoveVal.num 2)).move.gameID = instA.gameID ∧
    (handleMakeMove "alice" instA (MoveVal.num 2)).gameID = instA.gameID ∧
    (handleMakeMove "alice" instA (MoveVal.num 2)).move.move.numObjects = 2 ∧
    (handleMakeMove "alice" instA (MoveVal.str "")).move.move.numObjects = 0 :=
  handleMakeMove_payload "alice" instA (MoveVal.num 2) 2 rfl

/-- C6: `handleGameError` sets the error state to the payload's error
exactly when the payload names the current user, and leaves the error state
unchanged otherwise. -/
theorem handleGameError_scoped (username : String) (cur : Option String)
    (p : GameErrorPayload) :
    (p.player = username → handleGameError username cur p = some p.error) ∧
    (p.player ≠ username → handleGameError username cur p = cur) := by
  constructor <;> intro h <;> simp [handleGameError, h]

/-- Witness for C6: Alice receives her own error; Bob ignores Alice's
error. -/
theorem handleGameError_scoped_witness :
    handleGameError "alice" none { player := "alice", error := "boom" } = some "boom" ∧
    handleGameError "bob" (some "old") { player := "alice", error := "boom" } = some "old" :=
  ⟨(handleGameError_scoped "alice" none { player := "alice", error := "boom" }).1 rfl,
   (handleGameError_scoped "bob" (some "old") { player := "alice", error := "boom" }).2
     (by decide)⟩

/-- C7: after any input-change event the stored move is the number 1 when
the field was cleared; it is unchanged when the field is non-empty and the
last character does not convert to a value in [1,3]; and in every case the
result is either the previous state or a number in {1,2,3}. -/
theorem handleInputChange_range (value : String) (cur : MoveVal) :
    (value = "" → handleInputChange value cur = MoveVal.num 1) ∧
    (value ≠ "" →
      ¬ (1 ≤ jsNumber (MoveVal.str (sliceLast value)) ∧
          jsNumber (MoveVal.str (sliceLast value)) ≤ 3) →
      handleInputChange value cur = cur) ∧
    (handleInputChange value cur = cur ∨
      ∃ n : Int, handleInputChange value cur = MoveVal.num n ∧ 1 ≤ n ∧ n ≤ 3) := by
  refine ⟨?_, ?_, ?_⟩
  · intro h
    simp [handleInputChange, h]
  · intro hne hrange
    simp [handleInputChange, hne, hrange]
  · by_cases hempty : value = ""
    · exact Or.inr ⟨1, by simp [handleInputChange, hempty], by decide, by decide⟩
    · by_cases hrange : 1 ≤ jsNumber (MoveVal.str (sliceLast value)) ∧
        jsNumber (MoveVal.str (sliceLast value)) ≤ 3
      · exact Or.inr ⟨jsNumber (MoveVal.str (sliceLast value)),
          by simp [handleInputChange, hempty, hrange], hrange.1, hrange.2⟩
      · exact Or.inl (by simp [handleInputChange, hempty, hrange])

/-- Witness for C7: typing "2" stores 2; typing "x" leaves the previous 2;
clearing the field stores 1. -/
theorem handleInputChange_range_witness :
    handleInputChange "" (MoveVal.num 2) = MoveVal.num 1 ∧
    handleInputChange "x" (MoveVal.num 2) = MoveVal.num 2 ∧
    handleInputChange "2" (MoveVal.str "") = MoveVal.num 2 :=
  ⟨(handleInputChange_range "" (MoveVal.num 2)).1 rfl,
   (handleInputChange_range "x" (MoveVal.num 2)).2.1 (by decide) (by decide),
   by decide⟩

/-- A chat between Alice and Bob. -/
def chatA : Chat := { participants := ["alice", "bob"], messages := [] }

/-- A database with three users and one chat. -/
def dbA : ChatDB := { users := ["alice", "bob", "carol"], chats := [("chat1", chatA)] }

/-- Updating the entry of a keyed association list rewrites exactly the
looked-up value. -/
theorem find_entry_update (l : List (String × Chat)) (chatId : String)
    (c cNew : Chat)
    (h : (l.find? (fun p => p.1 = chatId)).map Prod.snd = some c) :
    ((l.map (fun p => if p.1 = chatId then (p.1, cNew) else p)).find?
        (fun p => p.1 = chatId)).map Prod.snd = some cNew := by
  induction l with
  | nil => simp at h
  | cons hd tl ih =>
    by_cases hk : hd.1 = chatId
    · have e1 : List.find? (fun x => decide (x.1 = chatId))
          ((if hd.1 = chatId then (hd.1, cNew) else hd) ::
            List.map (fun x => if x.1 = chatId then (x.1, cNew) else x) tl) =
          some (if hd.1 = chatId then (hd.1, cNew) else hd) :=
        List.find?_cons_of_pos (p := fun x : String × Chat => decide (x.1 = chatId)) _ (by simp [hk])
      rw [List.map_cons, e1]
      simp [hk]
    · have e1 : List.find? (fun x => decide (x.1 = chatId)) (hd :: tl) =
          List.find? (fun x => decide (x.1 = chatId)) tl :=
        List.find?_cons_of_neg (p := fun x : String × Chat => decide (x.1 = chatId)) _ (by simp [hk])
      have e2 : List.find? (fun x => decide (x.1 = chatId))
          ((if hd.1 = chatId then (hd.1, cNew) else hd) ::
            List.map (fun x => if x.1 = chatId then (x.1, cNew) else x) tl) =
          List.find? (fun x => decide (x.1 = chatId))
            (List.map (fun x => if x.1 = chatId then (x.1, cNew) else x) tl) :=
        List.find?_cons_of_neg (p := fun x : String × Chat => decide (x.1 = chatId)) _ (by simp [hk])
      rw [e1] at h
      rw [List.map_cons, e2]
      exact ih h

/-- C8: `addParticipantToChat` never duplicates a participant — when the
user does not exist, the chat does not exist, or the user is already a
participant, the call returns an error and the stored chats are unchanged;
otherwise the user is appended to the chat's participants exactly once. -/
theorem addParticipantToChat_no_duplicate (db : ChatDB) (chatId userId : String) :
    ((db.users.contains userId = false ∨ lookupChat db chatId = none ∨
        (∃ c, lookupChat db chatId = some c ∧
          c.participants.contains userId = true)) →
      (∃ e, (addParticipantToChat db chatId userId).2 = ChatResponse.err e) ∧
      (addParticipantToChat db chatId userId).1 = db) ∧
    (∀ c, db.users.contains userId = true → lookupChat db chatId = some c →
      c.participants.contains userId = false →
      (addParticipantToChat db chatId userId).2 =
        ChatResponse.chat { c with participants := c.participants ++ [userId] } ∧
      lookupChat (addParticipantToChat db chatId userId).1 chatId =
        some { c with participants := c.participants ++ [userId] } ∧
      (c.participants ++ [userId]).count userId = 1) := by
  constructor
  · intro hbad
    rcases hbad with h | h | ⟨c, hc, hmem⟩
    · have hn : userId ∉ db.users := by simpa using h
      simp [addParticipantToChat, hn]
    · by_cases hu : userId ∈ db.users
      · simp [addParticipantToChat, hu, h]
      · simp [addParticipantToChat, hu]
    · have hmemP : userId ∈ c.participants := by simpa using hmem
      by_cases hu : userId ∈ db.users
      · simp [addParticipantToChat, hu, hc, hmemP]
      · simp [addParticipantToChat, hu]
  · intro c hu hl hmem
    have huP : userId ∈ db.users := by simpa using hu
    have hmemP : userId ∉ c.participants := by simpa using hmem
    refine ⟨?_, ?_, ?_⟩
    · simp [addParticipantToChat, huP, hl, hmemP]
    · have hchats :
        (addParticipantToChat db chatId userId).1.chats =
          db.chats.map (fun p => if p.1 = chatId then
            (p.1, { c with participants := c.participants ++ [userId] }) else p) := by
        simp [addParticipantToChat, huP, hl, hmemP]
      have hlu : (db.chats.find? (fun p => p.1 = chatId)).map Prod.snd = some c := hl
      unfold lookupChat
      rw [hchats]
      exact find_entry_update db.chats chatId c _ hlu
    · rw [List.count_append, List.count_eq_zero_of_not_mem hmemP]
      simp

/-- Witness for C8: adding Carol to Alice and Bob's chat appends her once;
adding Alice again is rejected and leaves the database unchanged. -/
theorem addParticipantToChat_no_duplicate_witness :
    (addParticipantToChat dbA "chat1" "carol").2 =
      ChatResponse.chat { participants := ["alice", "bob", "carol"], messages := [] } ∧
    lookupChat (addParticipantToChat dbA "chat1" "carol").1 "chat1" =
      some { participants := ["alice", "bob", "carol"], messages := [] } ∧
    (addParticipantToChat dbA "chat1" "alice").1 = dbA := by
  have hgood := (addParticipantToChat_no_duplicate dbA "chat1" "carol").2 chatA
    (by decide) (by decide) (by decide)
  have hbad := (addParticipantToChat_no_duplicate dbA "chat1" "alice").1
    (Or.inr (Or.inr ⟨chatA, by decide, by decide⟩))
  exact ⟨hgood.1, hgood.2.1, hbad.2⟩

/-- C9: `getChatsByParticipants` only returns chats containing every
requested participant, and a failed lookup yields the empty array (never an
error value — its result type has no error case). -/
theorem getChatsByParticipants_all_members (db : ChatDB) (p : List String)
    (c : Chat) (u : String) (e : String)
    (hc : c ∈ getChatsByParticipants db p) (hu : u ∈ p) :
    c.participants.contains u = true ∧
    getChatsByParticipantsRaw (Except.error e) = [] := by
  constructor
  · unfold getChatsByParticipants getChatsByParticipantsRaw chatsMatching at hc
    have hpred := List.of_mem_filter hc
    exact List.all_eq_true.mp hpred u hu
  · rfl

/-- Witness for C9: querying `dbA` for chats containing Alice returns
`chatA`, which indeed contains Alice; a thrown lookup yields `[]`. -/
theorem getChatsByParticipants_all_members_witness :
    chatA.participants.contains "alice" = true ∧
    getChatsByParticipantsRaw (Except.error "db down") = [] :=
  getChatsByParticipants_all_members dbA ["alice"] chatA "alice" "db down"
    (by decide) (by decide)

/-- C10: every failure of `createMessage` — the sender lookup throwing, the
sender not existing, or the save throwing — returns exactly
`Error creating message: User not found`; on success the saved message has
type `direct` regardless of the input's type field. -/
theorem createMessage_collapsed (users : List String)
    (lookupFails saveFails : Bool) (m mOk : ChatMessage)
    (hfail : lookupFails = true ∨ users.contains m.msgFrom = false ∨
      saveFails = true)
    (hok : users.contains mOk.msgFrom = true) :
    createMessage users lookupFails saveFails m =
      MessageResponse.err "Error creating message: User not found" ∧
    createMessage users false false mOk =
      MessageResponse.msg { mOk with type := "direct" } := by
  constructor
  · rcases hfail with h | h | h
    · simp [createMessage, h]
    · have hn : m.msgFrom ∉ users := by simpa using h
      cases lookupFails <;> simp [createMessage, hn]
    · cases lookupFails with
      | true => simp [createMessage]
      | false =>
        by_cases hc : m.msgFrom ∈ users
        · simp [createMessage, hc, h]
        · simp [createMessage, hc]
  · have hm : mOk.msgFrom ∈ users := by simpa using hok
    simp [createMessage, hm]

/-- Witness for C10: a message from unknown Bob fails with the fixed error;
a message from Alice with a bogus type is saved with type `direct`. -/
theorem createMessage_collapsed_witness :
    createMessage ["alice"] false false
        { msg := "hi", msgFrom := "bob", msgDateTime := 0, type := "direct" } =
      MessageResponse.err "Error creating message: User not found" ∧
    createMessage ["alice"] false false
        { msg := "hi", msgFrom := "alice", msgDateTime := 0, type := "weird" } =
      MessageResponse.msg
        { msg := "hi", msgFrom := "alice", msgDateTime := 0, type := "direct" } :=
  createMessage_collapsed ["alice"] false false
    { msg := "hi", msgFrom := "bob", msgDateTime := 0, type := "direct" }
    { msg := "hi", msgFrom := "alice", msgDateTime := 0, type := "weird" }
    (Or.inr (Or.inl (by decide))) (by decide)
